import Mathlib

/-!
Shallow embedding of the Kademlia DHT server orchestration layer
(src/kademlia/network.py) and the narrow interfaces it consumes from its
collaborators (routing table, protocol layer, spider crawl, storage), which
are specified only through the calls `network.py` makes on them.

Machine integers do not occur: node ids, digests and XOR distances are
natural numbers (Python ints are unbounded).  Fallible Python code is
embedded with `Except`: a raised exception becomes `Except.error`.  The
observable side effects of an operation (digest computation, routing-table
query, spider creation, RPC transmission) are recorded in an explicit trace,
and the local storage is threaded as an explicit map.
-/

namespace Kademlia

/-- A contact (`kademlia.node.Node`): an id plus an optional address.  A
`Node` built from a bare digest (`Node(dkey)`) is a pure lookup target. -/
structure Node where
  id : Nat
  ip : Option String
  port : Option Nat
deriving DecidableEq, Repr

/-- XOR distance between two contacts (`Node.distance_to`): the bitwise xor
of the two ids read as an unsigned integer. -/
def Node.distance_to (a b : Node) : Nat := Nat.xor a.id b.id

/-- The exact runtime type of a Python value, as `type(v)` yields it.  A
strict subclass of a builtin is a distinct type object, not equal (by
Python's type identity) to its base; `subclass base` models such a type. -/
inductive PyType where
  | int
  | float
  | bool
  | str
  | bytes
  | subclass (base : PyType)
  | other (name : String)
deriving DecidableEq, Repr

/-- A Python value: its exact runtime type plus an abstract payload. -/
structure PyValue where
  ty : PyType
  payload : Nat
deriving DecidableEq, Repr

/-- Whether `isinstance(v, (int, float, bool, str, bytes))` would hold for a
value of this exact type: a subclass instance is an instance of its base. -/
def allowed_instance : PyType → Bool
  | PyType.int => true
  | PyType.float => true
  | PyType.bool => true
  | PyType.str => true
  | PyType.bytes => true
  | PyType.subclass base => allowed_instance base
  | PyType.other _ => false

/-- `check_dht_value_type` (src/kademlia/network.py:164-172): membership of
the value's exact type in the list `[int, float, bool, str, bytes]`.
Python's `type(value) in typeset` compares type objects by equality, which
for types is identity, so a strict subclass of a listed type is not in the
list. -/
def check_dht_value_type (value : PyValue) : Bool :=
  let typeset := [PyType.int, PyType.float, PyType.bool, PyType.str, PyType.bytes]
  typeset.contains value.ty

/-- A Python exception raised by the embedded code. -/
inductive PyError where
  | typeError (msg : String)
  | valueError (msg : String)
deriving DecidableEq, Repr

/-- The message of the `TypeError` raised by `Server.set`. -/
def typeErrMsg : String := "Value must be of type int, float, bool, str, or bytes"

/-- The message of the `ValueError` raised by Python's `max` on `max([])`. -/
def emptyMaxMsg : String := "max() arg is an empty sequence"

/-- An observable side effect of a server operation, in program order. -/
inductive Effect where
  | digestOf (key : String)
  | routerQuery (target : Nat)
  | spiderCreated (target : Nat)
  | rpcStore (nodeId : Nat) (dkey : Nat)
  | setDigestCall (dkey : Nat) (value : PyValue)
deriving DecidableEq, Repr

/-- The collaborators `network.py` consumes, abstracted behind the narrow
interfaces it calls (spec §6): `digest` (kademlia.utils), the routing
table's `find_neighbors`, the spiders' `find`, the protocol's `call_store`
and `ping`, `get_refresh_ids`, and the storage's `iter_older_than`. -/
structure Env where
  digest : String → Nat
  find_neighbors : Node → List Node
  spiderNodes : List Node → Node → List Node
  valueSpider : List Node → Node → Option PyValue
  call_store : Node → Nat → PyValue → Bool
  ping : String × Nat → Nat → Bool × Nat
  get_refresh_ids : List Nat
  iter_older_than : Nat → List (Nat × PyValue)

/-- The server state (`Server.__init__` fields the public operations read):
`ksize`, `alpha`, this node, and the local storage as a map from digest to
value. -/
structure Server where
  ksize : Nat
  alpha : Nat
  node : Node
  storage : Nat → Option PyValue

/-- The keyword parameters of `Server.__init__` with their default values
(src/kademlia/network.py:18): `ksize=20, alpha=3, node_id=None,
storage=None`. -/
structure ServerInitArgs where
  ksize : Nat := 20
  alpha : Nat := 3
  node_id : Option Nat := none
  storage : Option (Nat → Option PyValue) := none

/-- The names of the keyword parameters `Server.__init__` recognizes, in
signature order (src/kademlia/network.py:18). -/
def Server.init_option_names : List String := ["ksize", "alpha", "node_id", "storage"]

/-- `Server.__init__`: `node_id or digest(random.getrandbits(255))` falls
back to a random digest (`randDigest`), `storage or ForgetfulStorage()`
falls back to a fresh empty storage. -/
def Server.init (args : ServerInitArgs) (randDigest : Nat) : Server :=
  { ksize := args.ksize
    alpha := args.alpha
    node := { id := args.node_id.getD randDigest, ip := none, port := none }
    storage := args.storage.getD (fun _ => none) }

/-- `Node(dkey)`: a pure lookup target carrying only the digest. -/
def targetNode (dkey : Nat) : Node := { id := dkey, ip := none, port := none }

/-- Result of `Server.get`: the returned value (None = `none`) and the
effect trace.  `get` cannot raise, so there is no error component. -/
structure GetOut where
  result : Option PyValue
  trace : List Effect

/-- Result of `Server.set` / `Server.set_digest`: the returned boolean or
the raised exception, the effect trace, and the local storage afterwards. -/
structure SetOut where
  result : Except PyError Bool
  trace : List Effect
  storage : Nat → Option PyValue

/-- `Server.get` (src/kademlia/network.py:88-100): hash the key; if the
digest is in local storage return the stored value; otherwise ask the
routing table for neighbors of the target, return `None` when there are
none, and otherwise run a `ValueSpiderCrawl` and return its result. -/
def Server.get (s : Server) (e : Env) (key : String) : GetOut :=
  let dkey := e.digest key
  match s.storage dkey with
  | some v => { result := some v, trace := [Effect.digestOf key] }
  | none =>
      let node := targetNode dkey
      let nearest := e.find_neighbors node
      if nearest.isEmpty then
        { result := none, trace := [Effect.digestOf key, Effect.routerQuery dkey] }
      else
        { result := e.valueSpider nearest node
          trace := [Effect.digestOf key, Effect.routerQuery dkey, Effect.spiderCreated dkey] }

/-- `Server.set_digest` (src/kademlia/network.py:111-128): ask the routing
table for neighbors of `Node(dkey)` and return `False` when there are none;
otherwise run a `NodeSpiderCrawl` to get the located nodes, compute
`biggest = max([n.distance_to(node) for n in nodes])` (Python's `max`
raises `ValueError` on an empty sequence), store locally when this node is
strictly closer to the target than `biggest`, issue `call_store` to every
located node, and return whether any store succeeded. -/
def Server.set_digest (s : Server) (e : Env) (dkey : Nat) (value : PyValue) : SetOut :=
  let node := targetNode dkey
  let nearest := e.find_neighbors node
  if nearest.isEmpty then
    { result := Except.ok false
      trace := [Effect.routerQuery dkey]
      storage := s.storage }
  else
    let nodes := e.spiderNodes nearest node
    match (nodes.map (fun n => n.distance_to node)).max? with
    | none =>
        { result := Except.error (PyError.valueError emptyMaxMsg)
          trace := [Effect.routerQuery dkey, Effect.spiderCreated dkey]
          storage := s.storage }
    | some biggest =>
        { result := Except.ok (nodes.any (fun n => e.call_store n dkey value))
          trace := [Effect.routerQuery dkey, Effect.spiderCreated dkey]
              ++ nodes.map (fun n => Effect.rpcStore n.id dkey)
          storage :=
            if s.node.distance_to node < biggest then
              fun k => if k = dkey then some value else s.storage k
            else s.storage }

/-- `Server.set` (src/kademlia/network.py:102-109): raise `TypeError` when
`check_dht_value_type(value)` is false, before the digest is computed or
anything else happens; otherwise hash the key and delegate to
`set_digest`. -/
def Server.set (s : Server) (e : Env) (key : String) (value : PyValue) : SetOut :=
  if check_dht_value_type value = false then
    { result := Except.error (PyError.typeError typeErrMsg)
      trace := []
      storage := s.storage }
  else
    let out := s.set_digest e (e.digest key) value
    { result := out.result
      trace := Effect.digestOf key :: out.trace
      storage := out.storage }

/-- `Server.bootstrap_node` (src/kademlia/network.py:84-86): ping the
address; on success build a contact from the responder's id (`result[1]`)
and the pinged address, on failure yield `None`. -/
def Server.bootstrap_node (s : Server) (e : Env) (addr : String × Nat) : Option Node :=
  let result := e.ping addr s.node.id
  if result.1 then
    some { id := result.2, ip := some addr.1, port := some addr.2 }
  else
    none

/-- Result of `Server.bootstrap`: the seed set handed to the spider and the
spider's result. -/
structure BootstrapOut where
  seeds : List Node
  found : List Node

/-- `Server.bootstrap` (src/kademlia/network.py:74-82): ping every address
via `bootstrap_node`, keep the non-`None` results, and seed a
`NodeSpiderCrawl` targeting this node with them. -/
def Server.bootstrap (s : Server) (e : Env) (addrs : List (String × Nat)) : BootstrapOut :=
  let gathered := addrs.map (fun addr => s.bootstrap_node e addr)
  let nodes := gathered.filterMap (fun x => x)
  { seeds := nodes, found := e.spiderNodes nodes s.node }

/-- Contacts of `ns` sorted by ascending XOR distance to `target`, truncated
to the `k` closest (insertion sort; used only by the spec-modelled spider). -/
def insertByDist (target : Node) (n : Node) : List Node → List Node
  | [] => [n]
  | m :: ms =>
      if n.distance_to target < m.distance_to target then n :: m :: ms
      else m :: insertByDist target n ms

/-- Sort contacts by ascending XOR distance to `target`. -/
def sortByDist (target : Node) : List Node → List Node
  | [] => []
  | n :: ns => insertByDist target n (sortByDist target ns)

/-- The `k` closest contacts to `target` among `ns`. -/
def takeClosest (k : Nat) (target : Node) (ns : List Node) : List Node :=
  (sortByDist target ns).take k

/-- Keep the first contact for each id (spiders dedup the shortlist by id). -/
def dedupById (ns : List Node) : List Node :=
  ns.foldl (fun acc n => if acc.any (fun m => m.id == n.id) then acc else acc ++ [n]) []

/-- The state of a spider lookup (spec §3 "Spider state"): the shortlist of
candidate contacts, the ids already queried, the ids dropped as dead, and
the contacts that responded. -/
structure SpiderState where
  shortlist : List Node
  contacted : List Nat
  dead : List Nat
  live : List Node

/-- The nodes a spider round queries (spec §4.4 step 2a): up to `a` of the
`k` closest not-yet-contacted candidates still on the shortlist. -/
def spiderSelect (k a : Nat) (target : Node) (st : SpiderState) : List Node :=
  ((takeClosest k target (st.shortlist.filter (fun n => !(st.dead.contains n.id)))).filter
      (fun n => !(st.contacted.contains n.id))).take a

/-- Modelled from the spec: `NodeSpiderCrawl.find` of src/kademlia/crawling.py,
which is not in the source tree.  Spec §4.4: each round queries up to α of
the closest k uncontacted candidates, merges the contacts returned by the
responders into the shortlist (dedup by id), drops failed responders
permanently, and on termination (no queryable candidate remains) returns
the k closest successfully-responding contacts.  `alive` says which nodes
respond; `responseOf` gives a responder's returned contacts; `fuel` bounds
the rounds (the real loop terminates because ids are finite). -/
def nodeSpiderFind (alive : Node → Bool) (responseOf : Node → List Node) (k a : Nat)
    (target : Node) : Nat → SpiderState → List Node
  | 0, st => takeClosest k target st.live
  | fuel + 1, st =>
      let sel := spiderSelect k a target st
      if sel.isEmpty then takeClosest k target st.live
      else
        let responders := sel.filter alive
        let failed := sel.filter (fun n => !(alive n))
        let found := (responders.map responseOf).flatten
        nodeSpiderFind alive responseOf k a target fuel
          { shortlist := dedupById (st.shortlist ++ found)
            contacted := st.contacted ++ sel.map Node.id
            dead := st.dead ++ failed.map Node.id
            live := st.live ++ responders }

/-- Modelled from the spec: the spider's initial state, seeded with the
caller-supplied contacts, dedup by id, nothing contacted yet (§4.4 step 1). -/
def nodeSpiderInit (seeds : List Node) : SpiderState :=
  { shortlist := dedupById seeds, contacted := [], dead := [], live := [] }

/-- A task scheduled on the event loop: what it does now and in how many
seconds it is rescheduled. -/
structure ScheduledTask where
  effects : List Effect
  reschedule_delay : Nat

/-- `Server._refresh_table` (src/kademlia/network.py:56-68): for every id
from `get_refresh_ids` run a `NodeSpiderCrawl`; after all spiders complete,
call `set_digest` once for every entry of `storage.iter_older_than(3600)`. -/
def Server.refresh_body (_s : Server) (e : Env) : List Effect :=
  (e.get_refresh_ids.map (fun nid => Effect.spiderCreated nid))
    ++ ((e.iter_older_than 3600).map (fun p => Effect.setDigestCall p.1 p.2))

/-- `Server.refresh_table` (src/kademlia/network.py:50-54): run
`_refresh_table` now and reschedule itself with `loop.call_later(3600, ...)`. -/
def Server.refresh_table (s : Server) (e : Env) : ScheduledTask :=
  { effects := s.refresh_body e, reschedule_delay := 3600 }

/-! ### Concrete fixtures used by witness theorems -/

/-- A concrete string value (allowed type). -/
def vStr : PyValue := { ty := PyType.str, payload := 0 }

/-- A concrete int value (allowed type). -/
def vInt : PyValue := { ty := PyType.int, payload := 7 }

/-- A concrete `object()` value (disallowed type). -/
def vObj : PyValue := { ty := PyType.other "object", payload := 0 }

/-- A concrete contact. -/
def nodeA : Node := { id := 5, ip := some "127.0.0.1", port := some 8468 }

/-- A concrete server with empty local storage. -/
def serverW : Server :=
  { ksize := 20, alpha := 3, node := { id := 9, ip := none, port := none }
    storage := fun _ => none }

/-- A concrete server whose storage holds `vStr` under digest 1. -/
def serverHit : Server :=
  { serverW with storage := fun k => if k = 1 then some vStr else none }

/-- A concrete environment: one known neighbor, a spider that returns its
seeds, stores that always succeed, pings that succeed only on port 1. -/
def envW : Env :=
  { digest := fun _ => 1
    find_neighbors := fun _ => [nodeA]
    spiderNodes := fun seeds _ => seeds
    valueSpider := fun _ _ => none
    call_store := fun _ _ _ => true
    ping := fun addr _ => (decide (addr.2 = 1), 7)
    get_refresh_ids := [3]
    iter_older_than := fun _ => [(2, vStr)] }

/-- `envW` with an empty routing table. -/
def envEmpty : Env := { envW with find_neighbors := fun _ => [] }

/-- `envW` with the spec-modelled spider over a network where no node ever
responds: every lookup loses all its seeds and returns no live contacts. -/
def envDead : Env :=
  { envW with
    spiderNodes := fun seeds target =>
      nodeSpiderFind (fun _ => false) (fun _ => []) 20 3 target 8 (nodeSpiderInit seeds) }

/-! ### Helper lemmas -/

/-- Folding `max` over naturals yields a member of `a :: as` bounding it. -/
theorem foldl_max_spec (as : List Nat) (a : Nat) :
    as.foldl max a ∈ a :: as ∧ ∀ x ∈ a :: as, x ≤ as.foldl max a := by
  induction as generalizing a with
  | nil => simp
  | cons c cs ih =>
      obtain ⟨hmem, hbound⟩ := ih (max a c)
      have hfold : (c :: cs).foldl max a = cs.foldl max (max a c) := rfl
      constructor
      · rw [hfold]
        rcases List.mem_cons.mp hmem with h | h
        · rcases max_choice a c with hc | hc
          · rw [h, hc]; exact List.mem_cons_self a (c :: cs)
          · rw [h, hc]
            exact List.mem_cons_of_mem a (List.mem_cons_self c cs)
        · exact List.mem_cons_of_mem a (List.mem_cons_of_mem c h)
      · intro x hx
        rw [hfold]
        rcases List.mem_cons.mp hx with rfl | hx
        · exact le_trans (le_max_left x c) (hbound _ (List.mem_cons_self _ _))
        · rcases List.mem_cons.mp hx with rfl | hx
          · exact le_trans (le_max_right a x) (hbound _ (List.mem_cons_self _ _))
          · exact hbound x (List.mem_cons_of_mem _ hx)

/-- `List.max?` of a list of naturals yields a member that bounds the list. -/
theorem max?_mem_le {l : List Nat} {b : Nat} (h : l.max? = some b) :
    b ∈ l ∧ ∀ x ∈ l, x ≤ b := by
  cases l with
  | nil => simp at h
  | cons a as =>
      rw [List.max?_cons'] at h
      obtain rfl : as.foldl max a = b := by simpa using h
      exact foldl_max_spec as a

/-- `set_digest` never produces a `TypeError`: its only outcomes are a
boolean and the `ValueError` of `max` on an empty sequence. -/
theorem set_digest_result_shape (s : Server) (e : Env) (dkey : Nat) (v : PyValue) :
    (∃ b, (s.set_digest e dkey v).result = Except.ok b) ∨
    (s.set_digest e dkey v).result = Except.error (PyError.valueError emptyMaxMsg) := by
  cases hn : e.find_neighbors (targetNode dkey) with
  | nil => exact Or.inl ⟨false, by simp [Server.set_digest, hn]⟩
  | cons a as =>
      cases hm : ((e.spiderNodes (a :: as) (targetNode dkey)).map
          (fun n => n.distance_to (targetNode dkey))).max? with
      | none => exact Or.inr (by simp [Server.set_digest, hn, hm])
      | some biggest =>
          exact Or.inl ⟨(e.spiderNodes (a :: as) (targetNode dkey)).any
            (fun n => e.call_store n dkey v), by simp [Server.set_digest, hn, hm]⟩

/-! ### Claims -/

/-- C1: for every value whose type is not one of int, float, bool, str,
bytes, `set(key, value)` rejects the value with a `TypeError` at the API
boundary, before any digest is computed, any lookup is started or any RPC
is issued (the effect trace is empty and the storage untouched); for every
value of an allowed type, `set` does not raise this error. -/
theorem set_type_boundary (s : Server) (e : Env) (key : String) (v : PyValue) :
    (check_dht_value_type v = false →
        (s.set e key v).result = Except.error (PyError.typeError typeErrMsg) ∧
        (s.set e key v).trace = [] ∧
        (s.set e key v).storage = s.storage) ∧
    (check_dht_value_type v = true →
        ∀ msg, (s.set e key v).result ≠ Except.error (PyError.typeError msg)) := by
  constructor
  · intro h
    simp [Server.set, h]
  · intro h msg
    simp only [Server.set, h, Bool.true_eq_false, if_false]
    rcases set_digest_result_shape s e (e.digest key) v with ⟨b, hb⟩ | hb <;>
      simp [hb]

/-- C9: type acceptance is by exact type, not by subclass: a value whose
exact type is a strict subclass of an allowed builtin is an instance of an
allowed type, yet `check_dht_value_type` rejects it and `set` raises the
`TypeError`; `bool` itself, listed explicitly, is accepted. -/
theorem set_exact_type_not_subclass (s : Server) (e : Env) (key : String)
    (base : PyType) (d : Nat) (hb : allowed_instance base = true) :
    allowed_instance (PyType.subclass base) = true ∧
    check_dht_value_type { ty := PyType.subclass base, payload := d } = false ∧
    (s.set e key { ty := PyType.subclass base, payload := d }).result =
      Except.error (PyError.typeError typeErrMsg) ∧
    check_dht_value_type { ty := PyType.bool, payload := d } = true := by
  refine ⟨by simpa [allowed_instance] using hb, ?_, ?_, by simp [check_dht_value_type]⟩
  · simp [check_dht_value_type]
  · simp [Server.set, check_dht_value_type]

/-- C9 witness: a strict subclass of `int` is rejected at a concrete input. -/
theorem set_exact_type_not_subclass_witness :
    allowed_instance (PyType.subclass PyType.int) = true ∧
    check_dht_value_type { ty := PyType.subclass PyType.int, payload := 3 } = false ∧
    (serverW.set envW "k" { ty := PyType.subclass PyType.int, payload := 3 }).result =
      Except.error (PyError.typeError typeErrMsg) ∧
    check_dht_value_type { ty := PyType.bool, payload := 3 } = true :=
  set_exact_type_not_subclass serverW envW "k" PyType.int 3 (by decide)

/-- C2: with an empty routing table, `get` on a locally missing key returns
`None` without creating a spider or issuing an RPC, and `set_digest`
returns `False` without issuing an RPC or modifying local storage. -/
theorem empty_table_behavior (s : Server) (e : Env) (key : String) (dkey : Nat) (v : PyValue)
    (hmiss : s.storage (e.digest key) = none)
    (hget : e.find_neighbors (targetNode (e.digest key)) = [])
    (hset : e.find_neighbors (targetNode dkey) = []) :
    (s.get e key).result = none ∧
    (s.get e key).trace = [Effect.digestOf key, Effect.routerQuery (e.digest key)] ∧
    (s.set_digest e dkey v).result = Except.ok false ∧
    (s.set_digest e dkey v).trace = [Effect.routerQuery dkey] ∧
    (s.set_digest e dkey v).storage = s.storage := by
  refine ⟨?_, ?_, ?_, ?_, ?_⟩ <;>
    simp [Server.get, Server.set_digest, hmiss, hget, hset]

/-- C2 witness: with no neighbors, `get "x"` misses and `set_digest 1`
fails, both without spider, RPC or storage effects. -/
theorem empty_table_behavior_witness :
    (serverW.get envEmpty "x").result = none ∧
    (serverW.get envEmpty "x").trace =
      [Effect.digestOf "x", Effect.routerQuery (envEmpty.digest "x")] ∧
    (serverW.set_digest envEmpty 1 vStr).result = Except.ok false ∧
    (serverW.set_digest envEmpty 1 vStr).trace = [Effect.routerQuery 1] ∧
    (serverW.set_digest envEmpty 1 vStr).storage = serverW.storage :=
  empty_table_behavior serverW envEmpty "x" 1 vStr rfl rfl rfl

/-- C6: when the key's digest is in local storage, `get` returns the stored
value and its trace holds neither a routing-table query, nor a spider, nor
an RPC — only the digest computation. -/
theorem get_local_short_circuit (s : Server) (e : Env) (key : String) (v : PyValue)
    (hhit : s.storage (e.digest key) = some v) :
    (s.get e key).result = some v ∧
    (s.get e key).trace = [Effect.digestOf key] := by
  constructor <;> simp [Server.get, hhit]

/-- C6 witness: a stored value under digest 1 is returned locally. -/
theorem get_local_short_circuit_witness :
    (serverHit.get envW "x").result = some vStr ∧
    (serverHit.get envW "x").trace = [Effect.digestOf "x"] :=
  get_local_short_circuit serverHit envW "x" vStr rfl

/-- C4: when `set_digest` reaches the store phase with located nodes `N`
(the lookup returned a maximal distance `biggest`), the value is written to
local storage exactly when this node's XOR distance to the key digest is
strictly below the maximum XOR distance from the digest over `N`; otherwise
the local storage is unchanged by this step. -/
theorem set_digest_local_store (s : Server) (e : Env) (dkey : Nat) (v : PyValue)
    (biggest : Nat)
    (hne : e.find_neighbors (targetNode dkey) ≠ [])
    (hmax : ((e.spiderNodes (e.find_neighbors (targetNode dkey)) (targetNode dkey)).map
        (fun n => n.distance_to (targetNode dkey))).max? = some biggest) :
    (∃ n ∈ e.spiderNodes (e.find_neighbors (targetNode dkey)) (targetNode dkey),
        n.distance_to (targetNode dkey) = biggest) ∧
    (∀ n ∈ e.spiderNodes (e.find_neighbors (targetNode dkey)) (targetNode dkey),
        n.distance_to (targetNode dkey) ≤ biggest) ∧
    (s.set_digest e dkey v).storage =
      (if s.node.distance_to (targetNode dkey) < biggest then
        fun k => if k = dkey then some v else s.storage k
      else s.storage) := by
  obtain ⟨hm, hb⟩ := max?_mem_le hmax
  refine ⟨?_, ?_, ?_⟩
  · obtain ⟨n, hn1, hn2⟩ := List.mem_map.mp hm
    exact ⟨n, hn1, hn2⟩
  · intro n hn1
    exact hb _ (List.mem_map_of_mem _ hn1)
  · cases hn : e.find_neighbors (targetNode dkey) with
    | nil => exact absurd hn hne
    | cons a as =>
        rw [hn] at hmax
        simp [Server.set_digest, hn, hmax]

/-- C4 witness: this node (distance 8) is farther than the one located node
(distance 4), so local storage is unchanged by `set_digest`. -/
theorem set_digest_local_store_witness :
    (serverW.set_digest envW 1 vStr).storage = serverW.storage := by
  have h := (set_digest_local_store serverW envW 1 vStr 4 (by decide) rfl).2.2
  rw [if_neg (by decide)] at h
  exact h

/-- C5: when `set_digest` runs its lookup, a store RPC is issued to every
located node, and the operation returns `True` exactly when at least one of
those store calls succeeds. -/
theorem set_digest_store_all_any (s : Server) (e : Env) (dkey : Nat) (v : PyValue)
    (hne : e.find_neighbors (targetNode dkey) ≠ []) :
    (∀ n ∈ e.spiderNodes (e.find_neighbors (targetNode dkey)) (targetNode dkey),
        Effect.rpcStore n.id dkey ∈ (s.set_digest e dkey v).trace) ∧
    ((s.set_digest e dkey v).result = Except.ok true ↔
      ∃ n ∈ e.spiderNodes (e.find_neighbors (targetNode dkey)) (targetNode dkey),
        e.call_store n dkey v = true) := by
  cases hn : e.find_neighbors (targetNode dkey) with
  | nil => exact absurd hn hne
  | cons a as =>
      cases hnodes : e.spiderNodes (a :: as) (targetNode dkey) with
      | nil => simp [Server.set_digest, hn, hnodes]
      | cons b bs =>
          constructor
          · intro n hmem
            simp only [Server.set_digest, hn, hnodes, List.isEmpty_cons, List.max?_cons',
              Bool.false_eq_true, if_false]
            exact List.mem_append_right _ (List.mem_map_of_mem _ hmem)
          · simp only [Server.set_digest, hn, hnodes, List.isEmpty_cons, List.max?_cons',
              Bool.false_eq_true, if_false]
            simp [List.any_eq_true]

/-- C5 witness: with one located node whose store succeeds, the store RPC
is in the trace and the operation returns `True`. -/
theorem set_digest_store_all_any_witness :
    Effect.rpcStore nodeA.id 1 ∈ (serverW.set_digest envW 1 vStr).trace ∧
    (serverW.set_digest envW 1 vStr).result = Except.ok true := by
  have h := set_digest_store_all_any serverW envW 1 vStr (by decide)
  exact ⟨h.1 nodeA (by decide), h.2.mpr ⟨nodeA, by decide, rfl⟩⟩

/-- C3 counterexample: with one known neighbor but a network where no node
ever responds, the spec-modelled spider returns no live contacts, and
`set_digest` raises `ValueError` (Python's `max` over the empty distance
list) instead of returning a failure value — so an error branch other than
the `InvalidValueType` boundary check is reachable. -/
theorem set_digest_raises_counterexample :
    (serverW.set_digest envDead 1 vStr).result =
      Except.error (PyError.valueError emptyMaxMsg) := rfl

/-- C3 amended: `get` returns absence rather than raising; `set` raises the
`TypeError` exactly at the input boundary; and the only other reachable
error of `set`/`set_digest` is the `ValueError` from `max` on an empty
sequence, which occurs exactly when the routing table was non-empty but the
node lookup returned no nodes.  In every other case the operations return
a value. -/
theorem public_ops_error_policy (s : Server) (e : Env) (key : String) (dkey : Nat)
    (v : PyValue) :
    ((s.set e key v).result = Except.error (PyError.typeError typeErrMsg) ↔
      check_dht_value_type v = false) ∧
    (∀ msg, (s.set_digest e dkey v).result = Except.error (PyError.valueError msg) ↔
      (msg = emptyMaxMsg ∧ e.find_neighbors (targetNode dkey) ≠ [] ∧
        e.spiderNodes (e.find_neighbors (targetNode dkey)) (targetNode dkey) = [])) ∧
    (∀ err, (s.set_digest e dkey v).result = Except.error err →
      err = PyError.valueError emptyMaxMsg) ∧
    (∀ err, (s.set e key v).result = Except.error err →
      err = PyError.typeError typeErrMsg ∨ err = PyError.valueError emptyMaxMsg) := by
  have hshape := set_digest_result_shape s e dkey v
  have hshapek := set_digest_result_shape s e (e.digest key) v
  refine ⟨?_, ?_, ?_, ?_⟩
  · cases hc : check_dht_value_type v with
    | false => simp [Server.set, hc]
    | true =>
        simp only [Server.set, hc, Bool.true_eq_false, if_false]
        refine iff_of_false ?_ (by simp)
        rcases hshapek with ⟨b, hb⟩ | hb <;> simp [hb]
  · intro msg
    cases hn : e.find_neighbors (targetNode dkey) with
    | nil =>
        refine iff_of_false ?_ (by simp)
        simp [Server.set_digest, hn]
    | cons a as =>
        cases hnodes : e.spiderNodes (a :: as) (targetNode dkey) with
        | nil =>
            simp only [Server.set_digest, hn, hnodes, List.isEmpty_cons,
              Bool.false_eq_true, if_false, List.map_nil, List.max?_nil]
            simp [eq_comm]
        | cons b bs =>
            refine iff_of_false ?_ (by simp)
            simp [Server.set_digest, hn, hnodes, List.max?_cons']
  · intro err herr
    rcases hshape with ⟨b, hb⟩ | hb
    · rw [hb] at herr
      cases herr
    · rw [hb] at herr
      simpa using herr.symm
  · intro err herr
    cases hc : check_dht_value_type v with
    | false =>
        left
        rw [Server.set] at herr
        simp only [hc, if_true] at herr
        simpa using herr.symm
    | true =>
        right
        simp only [Server.set, hc, Bool.true_eq_false, if_false] at herr
        rcases hshapek with ⟨b, hb⟩ | hb
        · rw [hb] at herr
          cases herr
        · rw [hb] at herr
          simpa using herr.symm

/-- C7 counterexample: `Server.__init__` does not recognize `rpc_timeout`
or `refresh_interval` as options, and it does recognize `storage`, which
the claim's option list omits. -/
theorem init_options_counterexample :
    ("rpc_timeout" ∉ Server.init_option_names) ∧
    ("refresh_interval" ∉ Server.init_option_names) ∧
    ("storage" ∈ Server.init_option_names) := by decide

/-- C7 amended: the server constructor recognizes exactly the options
`ksize` (default 20), `alpha` (default 3), `node_id` (default: a random
digest) and `storage` (default: a fresh empty storage), and no other
option; the refresh delay is hardcoded to 3600 seconds rather than being a
constructor option. -/
theorem init_options_exact (r : Nat) (s : Server) (e : Env) :
    Server.init_option_names = ["ksize", "alpha", "node_id", "storage"] ∧
    (Server.init {} r).ksize = 20 ∧
    (Server.init {} r).alpha = 3 ∧
    (Server.init {} r).node.id = r ∧
    (∀ k, (Server.init {} r).storage k = none) ∧
    (s.refresh_table e).reschedule_delay = 3600 :=
  ⟨rfl, rfl, rfl, rfl, fun _ => rfl, rfl⟩

/-- C8: the maintenance task reschedules itself 3600 seconds later; its
body runs one NodeSpider per stale-bucket refresh id, and afterwards (all
spider effects precede all republish effects in the trace) invokes
`set_digest` exactly once for each locally stored entry older than 3600
seconds. -/
theorem refresh_table_maintenance (s : Server) (e : Env)
    (hnd : ((e.iter_older_than 3600).map Prod.fst).Nodup) :
    (s.refresh_table e).reschedule_delay = 3600 ∧
    (s.refresh_table e).effects =
      (e.get_refresh_ids.map (fun nid => Effect.spiderCreated nid))
        ++ ((e.iter_older_than 3600).map (fun p => Effect.setDigestCall p.1 p.2)) ∧
    (∀ nid ∈ e.get_refresh_ids,
      Effect.spiderCreated nid ∈ (s.refresh_table e).effects) ∧
    (∀ p ∈ e.iter_older_than 3600,
      ((s.refresh_table e).effects.count (Effect.setDigestCall p.1 p.2)) = 1) := by
  have hinj : Function.Injective (fun p : Nat × PyValue => Effect.setDigestCall p.1 p.2) := by
    intro p q h
    cases p
    cases q
    simpa [Prod.ext_iff] using h
  refine ⟨rfl, rfl, ?_, ?_⟩
  · intro nid hnid
    exact List.mem_append_left _ (List.mem_map_of_mem _ hnid)
  · intro p hp
    show ((e.get_refresh_ids.map (fun nid => Effect.spiderCreated nid))
        ++ ((e.iter_older_than 3600).map (fun q => Effect.setDigestCall q.1 q.2))).count
        (Effect.setDigestCall p.1 p.2) = 1
    rw [List.count_append]
    have h0 : (e.get_refresh_ids.map (fun nid => Effect.spiderCreated nid)).count
        (Effect.setDigestCall p.1 p.2) = 0 := by
      rw [List.count_eq_zero]
      intro hmem
      obtain ⟨x, -, hx⟩ := List.mem_map.mp hmem
      cases hx
    have h1 : ((e.iter_older_than 3600).map (fun q => Effect.setDigestCall q.1 q.2)).count
        (Effect.setDigestCall p.1 p.2) = 1 := by
      have := List.count_map_of_injective (e.iter_older_than 3600)
        (fun q : Nat × PyValue => Effect.setDigestCall q.1 q.2) hinj p
      rw [this]
      exact List.count_eq_one_of_mem (hnd.of_map Prod.fst) hp
    rw [h0, h1]

/-- C8 witness: with one stale entry, the task reschedules at 3600 s and
republishes that entry exactly once. -/
theorem refresh_table_maintenance_witness :
    (serverW.refresh_table envW).reschedule_delay = 3600 ∧
    ((serverW.refresh_table envW).effects.count (Effect.setDigestCall 2 vStr)) = 1 := by
  have h := refresh_table_maintenance serverW envW (by decide)
  exact ⟨h.1, h.2.2.2 (2, vStr) (by decide)⟩

/-- C10: `bootstrap` pings every address; a failed ping makes
`bootstrap_node` yield `None` and contributes nothing to the spider's seed
set; a successful ping seeds the spider with a contact carrying the
responder's id and the pinged address, and every seed arises this way. -/
theorem bootstrap_seed_set (s : Server) (e : Env) (addrs : List (String × Nat)) :
    (∀ addr, (e.ping addr s.node.id).1 = false → s.bootstrap_node e addr = none) ∧
    (∀ addr, (e.ping addr s.node.id).1 = true →
      s.bootstrap_node e addr =
        some { id := (e.ping addr s.node.id).2, ip := some addr.1, port := some addr.2 }) ∧
    (s.bootstrap e addrs).seeds =
      (addrs.map (fun addr => s.bootstrap_node e addr)).filterMap (fun x => x) ∧
    (∀ n ∈ (s.bootstrap e addrs).seeds, ∃ addr ∈ addrs,
      (e.ping addr s.node.id).1 = true ∧
      n = { id := (e.ping addr s.node.id).2, ip := some addr.1, port := some addr.2 }) ∧
    (∀ addr ∈ addrs, (e.ping addr s.node.id).1 = true →
      ({ id := (e.ping addr s.node.id).2, ip := some addr.1, port := some addr.2 } : Node) ∈
        (s.bootstrap e addrs).seeds) := by
  refine ⟨?_, ?_, rfl, ?_, ?_⟩
  · intro addr h
    simp [Server.bootstrap_node, h]
  · intro addr h
    simp [Server.bootstrap_node, h]
  · intro n hn
    simp only [Server.bootstrap, List.mem_filterMap, List.mem_map] at hn
    obtain ⟨x, ⟨addr, haddr, hx⟩, hxn⟩ := hn
    subst hxn
    cases hp : (e.ping addr s.node.id).1 with
    | false => simp [Server.bootstrap_node, hp] at hx
    | true =>
        refine ⟨addr, haddr, hp, ?_⟩
        simp only [Server.bootstrap_node, hp, if_true] at hx
        exact (Option.some.inj hx).symm
  · intro addr haddr h
    simp only [Server.bootstrap, List.mem_filterMap, List.mem_map]
    exact ⟨some { id := (e.ping addr s.node.id).2, ip := some addr.1, port := some addr.2 },
      ⟨addr, haddr, by simp [Server.bootstrap_node, h]⟩, rfl⟩

end Kademlia
